import Mathlib

/- Verification development for the phone-intake chatbot
   (examples/phone-chatbot/daily-twilio-sip-dial-in).

   The conversation-flow core of bot.py and its two collaborators
   (utils/address_validator.py, utils/date_converter.py) are shallowly
   embedded below.  External collaborator calls (the Google geocoding
   backend, the date converter seen from the scheduling handler, the
   notification send) are modelled as injected outcomes, so the handlers
   can be examined under every collaborator behaviour.  Machine-level
   Python details that the claims do not touch (logging, audio transport,
   the LLM loop) are omitted. -/

/-- ASCII lowercase of a string; Python str.lower on the ASCII data this
    program handles. -/
def lowerStr (s : String) : String := String.mk (s.data.map Char.toLower)

/-- ASCII uppercase of a string; Python str.upper. -/
def upperStr (s : String) : String := String.mk (s.data.map Char.toUpper)

/-- Whitespace recognized by Python str.strip. -/
def isWS (c : Char) : Bool :=
  c == ' ' || c == '\t' || c == '\n' || c == '\r' || c == '\x0b' || c == '\x0c'

/-- Remove leading and trailing whitespace from a character list. -/
def stripL (l : List Char) : List Char :=
  ((l.dropWhile isWS).reverse.dropWhile isWS).reverse

/-- Python relative_date.lower().strip(). -/
def stripLower (s : String) : String := String.mk (stripL (s.data.map Char.toLower))

/-- listStartsWith l p: p is an initial segment of l. -/
def listStartsWith : List Char → List Char → Bool
  | _, [] => true
  | [], _ :: _ => false
  | c :: cs, p :: ps => c == p && listStartsWith cs ps

/-- hasSubList l p: p occurs contiguously inside l. -/
def hasSubList : List Char → List Char → Bool
  | [], p => p.isEmpty
  | c :: rest, p => listStartsWith (c :: rest) p || hasSubList rest p

/-- Python substring test `pat in s`. -/
def strContains (s pat : String) : Bool := hasSubList s.data pat.data

/- ----------------------------------------------------------------
   Session state (FlowManager.state): a string-keyed mutable bag.
   ---------------------------------------------------------------- -/

/-- Component of a geocode result: one address component with its types. -/
structure GeoComp where
  types : List String
  deriving DecidableEq

/-- Values stored inside the address_data dictionary built by the validator. -/
inductive AVal where
  | s (v : String)
  | comps (v : List GeoComp)
  | b (v : Bool)
  deriving DecidableEq

/-- The address_data dictionary returned by AddressValidator.validate_address. -/
abbrev AddressData := List (String × AVal)

/-- Dictionary lookup inside address_data. -/
def adLookup : AddressData → String → Option AVal
  | [], _ => none
  | (k, v) :: rest, key => if k == key then some v else adLookup rest key

/-- Values stored in FlowManager.state by the handlers: strings, Python None,
    or the address_data dictionary. -/
inductive Val where
  | vs (v : String)
  | vnone
  | vaddr (d : AddressData)
  deriving DecidableEq

/-- FlowManager.state, a string-keyed dictionary. -/
abbrev SessionState := List (String × Val)

/-- Python dict assignment state[k] = v, modelled by shadowing. -/
def stSet (st : SessionState) (k : String) (v : Val) : SessionState := (k, v) :: st

/-- Python dict read state[k]; the most recent write wins. -/
def stGet : SessionState → String → Option Val
  | [], _ => none
  | (k, v) :: rest, key => if k == key then some v else stGet rest key

/-- Python state.get(key, default). -/
def stGetD (st : SessionState) (k : String) (d : Val) : Val := (stGet st k).getD d

/-- Tool-call arguments: the JSON object the model supplies, keyed by
    parameter name.  All parameters in this program are strings. -/
abbrev Args := List (String × String)

/-- Dictionary lookup in an args or result object (Python args[k] succeeds
    exactly when this returns some). -/
def alistGet : List (String × String) → String → Option String
  | [], _ => none
  | (k, v) :: rest, key => if k == key then some v else alistGet rest key

/-- Python args.get(key, default). -/
def argGetD (args : Args) (k d : String) : String := (alistGet args k).getD d

/- ----------------------------------------------------------------
   utils/address_validator.py
   ---------------------------------------------------------------- -/

/-- Failure modes of the geocoding backend call gmaps.geocode:
    the googlemaps ApiError, or any other exception. -/
inductive GeoErr where
  | apiError
  | otherError
  deriving DecidableEq

/-- One geocode result.  The geometry sub-dictionary is flattened into the
    location_type and location fields; location stands for the lat and lng
    payload, which this program only carries along. -/
structure GeoResult where
  address_components : List GeoComp
  formatted_address : String
  location_type : String
  location : String
  place_id : String
  deriving DecidableEq

/-- AddressValidator.validate_address, with the geocoding backend call
    modelled as an injected outcome (the result list, or a raised error).
    Note the method itself never raises: both exception arms are caught
    and reported through the returned triple. -/
def validate_address (geocode : Except GeoErr (List GeoResult)) :
    Bool × Option AddressData × Option String :=
  match geocode with
  | Except.error GeoErr.apiError =>
      (false, none, some "Unable to validate address due to service error. Please try again.")
  | Except.error GeoErr.otherError =>
      (false, none, some "Unable to validate address. Please try again.")
  | Except.ok [] =>
      (false, none, some "Address not found. Please provide a more specific address.")
  | Except.ok (result :: _) =>
      let components := result.address_components
      let formatted_address := result.formatted_address
      let has_street_number := components.any (fun comp => comp.types.contains "street_number")
      let has_route := components.any (fun comp => comp.types.contains "route")
      let has_locality := components.any (fun comp =>
        comp.types.contains "locality" || comp.types.contains "administrative_area_level_1")
      let location_type := result.location_type
      let is_precise := location_type == "ROOFTOP" || location_type == "RANGE_INTERPOLATED"
      let has_basic_components := has_route && has_locality
      if !has_basic_components then
        (false, none, some "Please provide a complete address with street, city, and state.")
      else if !is_precise && !has_street_number then
        (false,
         some [("formatted_address", AVal.s formatted_address),
               ("components", AVal.comps components),
               ("location_type", AVal.s location_type)],
         some "The address seems incomplete. Please provide the full street address including house number.")
      else
        (true,
         some [("formatted_address", AVal.s formatted_address),
               ("components", AVal.comps components),
               ("location", AVal.s result.location),
               ("location_type", AVal.s location_type),
               ("place_id", AVal.s result.place_id),
               ("has_street_number", AVal.b has_street_number),
               ("has_route", AVal.b has_route),
               ("has_locality", AVal.b has_locality)],
         none)

/- ----------------------------------------------------------------
   utils/date_converter.py
   ---------------------------------------------------------------- -/

/-- Numeric value of an ASCII digit. -/
def charDigit (c : Char) : Nat := c.toNat - '0'.toNat

/-- The am-or-pm alternative of the time regex, matched at the head. -/
def matchAmPm : List Char → Option String
  | 'a' :: 'm' :: _ => some "am"
  | 'p' :: 'm' :: _ => some "pm"
  | _ => none

/-- Skip a maximal run of whitespace. -/
def skipWS : List Char → List Char
  | [] => []
  | c :: rest => if isWS c then skipWS rest else c :: rest

/-- Try the regex (\d{1,2})\s*(am|pm) anchored at the head of the list,
    with the backtracking order of re (two digits first, then one). -/
def tryTimeAt : List Char → Option (Nat × String)
  | [] => none
  | c1 :: rest1 =>
    if c1.isDigit then
      let two :=
        match rest1 with
        | c2 :: rest2 =>
          if c2.isDigit then
            match matchAmPm (skipWS rest2) with
            | some p => some (charDigit c1 * 10 + charDigit c2, p)
            | none => none
          else none
        | [] => none
      match two with
      | some r => some r
      | none =>
        match matchAmPm (skipWS rest1) with
        | some p => some (charDigit c1, p)
        | none => none
    else none

/-- re.search of (\d{1,2})\s*(am|pm): leftmost match. -/
def searchTime : List Char → Option (Nat × String)
  | [] => none
  | c :: rest =>
    match tryTimeAt (c :: rest) with
    | some r => some r
    | none => searchTime rest

/-- The time_str computed by convert_relative_date (empty when the regex
    does not match). -/
def timeStrOf (rd : List Char) : String :=
  match searchTime rd with
  | none => ""
  | some (hour, period) =>
    let display_hour :=
      if period == "pm" && !(hour == 12) then hour
      else if period == "am" && hour == 12 then 12
      else hour
    " at " ++ toString display_hour ++ ":00 " ++ upperStr period

/-- Dates are day numbers: day 0 is 0000-03-01 proleptic Gregorian.
    Python datetime.weekday (Monday = 0) of day z; day 0 is a Wednesday. -/
def pyWeekday (z : Nat) : Nat := (z + 2) % 7

/-- DateConverter._get_next_weekday: days_ahead = weekday - today.weekday();
    if days_ahead <= 0 then days_ahead += 7; return today + days_ahead. -/
def getNextWeekday (today weekday : Nat) : Nat :=
  today +
    (if (weekday : Int) - (pyWeekday today : Int) ≤ 0 then
        (weekday : Int) - (pyWeekday today : Int) + 7
      else (weekday : Int) - (pyWeekday today : Int)).toNat

/-- Year, month, day of a day number (standard civil-from-days algorithm),
    used only to render strftime output. -/
def civilFromDays (z : Nat) : Nat × Nat × Nat :=
  let era := z / 146097
  let doe := z % 146097
  let yoe := (doe - doe / 1460 + doe / 36524 - doe / 146096) / 365
  let y := yoe + era * 400
  let doy := doe - (365 * yoe + yoe / 4 - yoe / 100)
  let mp := (5 * doy + 2) / 153
  let d := doy - (153 * mp + 2) / 5 + 1
  let m := if mp < 10 then mp + 3 else mp - 9
  (if m ≤ 2 then y + 1 else y, m, d)

/-- strftime %B month names. -/
def monthName : Nat → String
  | 1 => "January"
  | 2 => "February"
  | 3 => "March"
  | 4 => "April"
  | 5 => "May"
  | 6 => "June"
  | 7 => "July"
  | 8 => "August"
  | 9 => "September"
  | 10 => "October"
  | 11 => "November"
  | 12 => "December"
  | _ => ""

/-- Zero-padded two digits (strftime %d). -/
def pad2 (n : Nat) : String := if n < 10 then "0" ++ toString n else toString n

/-- Zero-padded four digits (strftime %Y). -/
def pad4 (n : Nat) : String :=
  if n < 10 then "000" ++ toString n
  else if n < 100 then "00" ++ toString n
  else if n < 1000 then "0" ++ toString n
  else toString n

/-- target_date.strftime of "%B %d, %Y". -/
def formatDate (z : Nat) : String :=
  let c := civilFromDays z
  monthName c.2.1 ++ " " ++ pad2 c.2.2 ++ ", " ++ pad4 c.1

/-- The target_date computed by DateConverter.convert_relative_date on the
    lowercased, stripped input; none models the fall-through else branch. -/
def convertTargetDate (today : Nat) (rd : String) : Option Nat :=
  if strContains rd "tomorrow" then some (today + 1)
  else if strContains rd "next monday" || strContains rd "monday" then
    some (getNextWeekday today 0)
  else if strContains rd "next tuesday" || strContains rd "tuesday" then
    some (getNextWeekday today 1)
  else if strContains rd "next wednesday" || strContains rd "wednesday" then
    some (getNextWeekday today 2)
  else if strContains rd "next thursday" || strContains rd "thursday" then
    some (getNextWeekday today 3)
  else if strContains rd "next friday" || strContains rd "friday" then
    some (getNextWeekday today 4)
  else if strContains rd "next week" then some (today + 7)
  else if strContains rd "two weeks" || strContains rd "2 weeks" then some (today + 14)
  else none

/-- Disjunction of every keyword test of the branch chain above; the else
    branch of convert_relative_date fires exactly when this is false. -/
def recognizesKeyword (rd : String) : Bool :=
  strContains rd "tomorrow" ||
  (strContains rd "next monday" || strContains rd "monday") ||
  (strContains rd "next tuesday" || strContains rd "tuesday") ||
  (strContains rd "next wednesday" || strContains rd "wednesday") ||
  (strContains rd "next thursday" || strContains rd "thursday") ||
  (strContains rd "next friday" || strContains rd "friday") ||
  strContains rd "next week" ||
  (strContains rd "two weeks" || strContains rd "2 weeks")

/-- DateConverter.convert_relative_date with self.today the given day
    number.  The recognized-keyword branches format the computed date and
    append time_str; the else branch returns the lowercased, stripped
    input (the function reassigned relative_date before branching). -/
def convert_relative_date (today : Nat) (relative_date : String) : String :=
  let rd := stripLower relative_date
  let time_str := timeStrOf rd.data
  match convertTargetDate today rd with
  | some target => formatDate target ++ time_str
  | none => rd

/-- Names of the weekdays the converter recognizes, indexed as in the code
    (Monday is 0 through Friday is 4). -/
def weekdayName (k : Fin 5) : String :=
  (["monday", "tuesday", "wednesday", "thursday", "friday"] : List String).get
    ⟨k.val, k.isLt⟩

/- ----------------------------------------------------------------
   Node registry (bot.py create_* functions).

   Handler bindings are by tool name in this embedding: each tool record
   keeps the declared name, description and JSON-schema parameters.  The
   properties list pairs each parameter name with its declared type (the
   extra format annotation on date_of_birth is not represented).
   ---------------------------------------------------------------- -/

/-- One role or task message of a node. -/
structure Message where
  role : String
  content : String
  deriving DecidableEq

/-- One declared tool of a node (name, description, parameter schema). -/
structure ToolFunction where
  name : String
  description : String
  properties : List (String × String)
  required : List String
  deriving DecidableEq

/-- One conversation node. -/
structure NodeConfig where
  name : String
  role_messages : List Message
  task_messages : List Message
  functions : List ToolFunction
  post_actions : List String
  deriving DecidableEq

/-- create_end_node. -/
def create_end_node : NodeConfig :=
  { name := "end"
    role_messages := []
    task_messages :=
      [{ role := "system"
         content := "Thank the customer for their time and end the conversation. Mention that an email has been sent to confirm their appointment. If available, mention the specific appointment date and time from the converted_appointment in the flow state." }]
    functions := []
    post_actions := ["end_conversation"] }

/-- create_initial_node. -/
def create_initial_node : NodeConfig :=
  { name := "initial"
    role_messages :=
      [{ role := "system"
         content := "You are a friendly medical agent. Your responses will be converted to audio, so avoid special characters. Always use the available functions to progress the conversation naturally.Introduce yourself as Dr. Smith\x27s medical AI assistant, that\x27s it. Do not ask for the patient\x27s name yet" }]
    task_messages :=
      [{ role := "system"
         content := "Do not introduce yourself twice. Start by asking how they are doing today, wait for them to respond, then ask for their name" }]
    functions :=
      [{ name := "collect_name"
         description := "Record customer\x27s name"
         properties := [("name", "string")]
         required := ["name"] }]
    post_actions := [] }

/-- create_date_of_birth_node. -/
def create_date_of_birth_node : NodeConfig :=
  { name := "date_of_birth"
    role_messages := []
    task_messages :=
      [{ role := "system"
         content := "Ask about the customer\x27s date of birth." }]
    functions :=
      [{ name := "collect_date_of_birth"
         description := "Record date of birth"
         properties := [("date_of_birth", "string")]
         required := ["date_of_birth"] }]
    post_actions := [] }

/-- create_insurance_node. -/
def create_insurance_node : NodeConfig :=
  { name := "insurance"
    role_messages := []
    task_messages :=
      [{ role := "system"
         content := "Ask about the customer\x27s insurance information." }]
    functions :=
      [{ name := "collect_insurance"
         description := "Record insurance information"
         properties := [("payer_name", "string"), ("payID", "string")]
         required := ["payer_name", "payID"] }]
    post_actions := [] }

/-- create_referral_node. -/
def create_referral_node : NodeConfig :=
  { name := "referral"
    role_messages := []
    task_messages :=
      [{ role := "system"
         content := "Ask about the customer\x27s referral information. wait for the customer to answer whether they have a referral or not; Record the referral name if they say so; if they say they do not have a referral, ask about their chief complaint" }]
    functions :=
      [{ name := "collect_referral"
         description := "Record referral information"
         properties := [("referral_name", "string")]
         required := ["referral_name"] },
       { name := "collect_chief_complaint"
         description := "Record the patient\x27s chief complaint or reason for visit"
         properties := [("chief_complaint", "string")]
         required := ["chief_complaint"] }]
    post_actions := [] }

/-- create_chief_complaint_node. -/
def create_chief_complaint_node : NodeConfig :=
  { name := "chief_complaint"
    role_messages := []
    task_messages :=
      [{ role := "system"
         content := "Ask about the reason the customer is calling in today - their chief complaint or main concern." }]
    functions :=
      [{ name := "collect_chief_complaint"
         description := "Record the patient\x27s chief complaint or reason for visit"
         properties := [("chief_complaint", "string")]
         required := ["chief_complaint"] }]
    post_actions := [] }

/-- create_address_node. -/
def create_address_node : NodeConfig :=
  { name := "address"
    role_messages := []
    task_messages :=
      [{ role := "system"
         content := "Ask for the customer\x27s address. Make sure to validate the address and ask for clarification if it seems incomplete or invalid. If the user did not provide city, state or zip code, check with them if it is the same as the validated address from Google Maps API" }]
    functions :=
      [{ name := "collect_address"
         description := "Record the patient\x27s address"
         properties := [("address", "string")]
         required := ["address"] }]
    post_actions := [] }

/-- create_address_retry_node: the dynamically synthesized retry node with
    the validation error baked into its prompt. -/
def create_address_retry_node (error_message : String) : NodeConfig :=
  { name := "address_retry"
    role_messages := []
    task_messages :=
      [{ role := "system"
         content := "The address provided could not be validated. " ++ error_message ++ " Please ask the customer to provide their complete address again, including street number, street name, city, state, and zip code." }]
    functions :=
      [{ name := "collect_address"
         description := "Record the patient\x27s address after retry"
         properties := [("address", "string")]
         required := ["address"] }]
    post_actions := [] }

/-- create_contact_info_node. -/
def create_contact_info_node : NodeConfig :=
  { name := "contact_info"
    role_messages := []
    task_messages :=
      [{ role := "system"
         content := "Ask for the customer\x27s contact information. Phone number is required, but email is optional. Make sure to get a valid phone number format." }]
    functions :=
      [{ name := "collect_contact_info"
         description := "Record the patient\x27s contact information"
         properties := [("phone_number", "string"), ("email", "string")]
         required := ["phone_number"] }]
    post_actions := [] }

/-- create_appointment_scheduling_node. -/
def create_appointment_scheduling_node : NodeConfig :=
  { name := "appointment_scheduling"
    role_messages := []
    task_messages :=
      [{ role := "system"
         content := "Offer the patient available appointment times with Dr. Smith: tomorrow at 3pm, next Monday at 10am, or next Wednesday at 11am. Ask which time works best for them. If they say nothing works, ask when they are available. If they say anything works, offer tomorrow at 3pm. If they give multiple options, pick the first one mentioned. Convert the selected time to a standardized format for scheduling but do not tell the patient about this process. " }]
    functions :=
      [{ name := "schedule_appointment"
         description := "Schedule an appointment based on patient preference"
         properties := [("appointment_choice", "string"), ("custom_time", "string")]
         required := ["appointment_choice"] },
       { name := "end_quote"
         description := "Complete the quote process"
         properties := []
         required := [] }]
    post_actions := [] }

/- ----------------------------------------------------------------
   Tool handlers (bot.py).  Each handler takes the tool-call arguments
   and the session state and returns (result payload, next node, new
   state); none models an uncaught KeyError when a dictionary access
   args[k] misses.  The result payload is the TypedDict the handler
   builds, as a key-value object.
   ---------------------------------------------------------------- -/

/-- Result payload of a handler (a TypedDict instance at runtime). -/
abbrev FRes := List (String × String)

/-- collect_name. -/
def collect_name (args : Args) (st : SessionState) :
    Option (FRes × NodeConfig × SessionState) :=
  match alistGet args "name" with
  | none => none
  | some name =>
      some ([("name", name)], create_date_of_birth_node, stSet st "name" (Val.vs name))

/-- collect_date_of_birth. -/
def collect_date_of_birth (args : Args) (st : SessionState) :
    Option (FRes × NodeConfig × SessionState) :=
  match alistGet args "date_of_birth" with
  | none => none
  | some date_of_birth =>
      some ([("date_of_birth", date_of_birth)], create_insurance_node,
        stSet st "date_of_birth" (Val.vs date_of_birth))

/-- collect_insurance. -/
def collect_insurance (args : Args) (st : SessionState) :
    Option (FRes × NodeConfig × SessionState) :=
  match alistGet args "payer_name" with
  | none => none
  | some payer_name =>
    match alistGet args "payID" with
    | none => none
    | some payerID =>
        some ([("payer_name", payer_name), ("payID", payerID)], create_referral_node,
          stSet (stSet st "payer_name" (Val.vs payer_name)) "payID" (Val.vs payerID))

/-- collect_referral.  The handler reads args["referral"], although the
    tool schema on the referral node declares the parameter referral_name;
    the result is built with the key referral (the TypedDict performs no
    runtime key check). -/
def collect_referral (args : Args) (st : SessionState) :
    Option (FRes × NodeConfig × SessionState) :=
  match alistGet args "referral" with
  | none => none
  | some referral_name =>
      some ([("referral", referral_name)], create_chief_complaint_node,
        stSet st "referral_doctor" (Val.vs referral_name))

/-- collect_chief_complaint. -/
def collect_chief_complaint (args : Args) (st : SessionState) :
    Option (FRes × NodeConfig × SessionState) :=
  match alistGet args "chief_complaint" with
  | none => none
  | some chief_complaint =>
      some ([("chief_complaint", chief_complaint)], create_address_node,
        stSet st "chief_complaint" (Val.vs chief_complaint))

/-- collect_address, with the call to address_validator.validate_address
    modelled as an injected outcome: Except.error models the call itself
    raising (the path the except arm of the handler catches), Except.ok
    the returned (is_valid, address_data, error_message) triple.  When
    is_valid is true but address_data is Python None, the attribute access
    address_data.get raises inside the try block and the same except arm
    accepts the raw address. -/
def collect_address (vres : Except Unit (Bool × Option AddressData × Option String))
    (args : Args) (st : SessionState) :
    Option (FRes × NodeConfig × SessionState) :=
  match alistGet args "address" with
  | none => none
  | some address =>
    match vres with
    | Except.ok (is_valid, address_data, error_message) =>
      if is_valid then
        match address_data with
        | some ad =>
          let formatted_address :=
            match adLookup ad "formatted_address" with
            | some (AVal.s v) => v
            | some _ => address
            | none => address
          some ([("address", formatted_address)], create_contact_info_node,
            stSet (stSet st "address" (Val.vs formatted_address)) "address_data" (Val.vaddr ad))
        | none =>
          some ([("address", address)], create_contact_info_node,
            stSet st "address" (Val.vs address))
      else
        some ([("address", "")],
          create_address_retry_node (match error_message with | some m => m | none => "None"),
          stSet st "address_validation_error"
            (match error_message with | some m => Val.vs m | none => Val.vnone))
    | Except.error _ =>
        some ([("address", address)], create_contact_info_node,
          stSet st "address" (Val.vs address))

/-- collect_address composed with the repository validator: the handler
    always receives the triple validate_address returns, because that
    method catches every exception of the geocoding backend itself. -/
def collect_address_system (geocode : Except GeoErr (List GeoResult))
    (args : Args) (st : SessionState) :
    Option (FRes × NodeConfig × SessionState) :=
  collect_address (Except.ok (validate_address geocode)) args st

/-- collect_contact_info. -/
def collect_contact_info (args : Args) (st : SessionState) :
    Option (FRes × NodeConfig × SessionState) :=
  match alistGet args "phone_number" with
  | none => none
  | some phone_number =>
    let email := argGetD args "email" ""
    some ([("phone_number", phone_number), ("email", email)],
      create_appointment_scheduling_node,
      stSet (stSet st "phone_number" (Val.vs phone_number)) "email" (Val.vs email))

/-- The keyword set of the first branch of schedule_appointment. -/
def nothingWorksKw (c : String) : Bool :=
  strContains c "nothing works" || strContains c "none work" || strContains c "not available"

/-- The keyword set of the second branch of schedule_appointment. -/
def anythingWorksKw (c : String) : Bool :=
  strContains c "anything works" || strContains c "any time" || strContains c "all work"

/-- The selected_appointment computed by the branch chain of
    schedule_appointment on the lowercased choice. -/
def selectAppointment (appointment_choice custom_time : String) : String :=
  if nothingWorksKw appointment_choice then
    (if custom_time == "" then "Custom time requested" else custom_time)
  else if anythingWorksKw appointment_choice then "tomorrow at 3pm"
  else if strContains appointment_choice "tomorrow" && strContains appointment_choice "monday" then
    "tomorrow at 3pm"
  else if strContains appointment_choice "monday" && strContains appointment_choice "wednesday" then
    "next Monday at 10am"
  else if strContains appointment_choice "tomorrow" then "tomorrow at 3pm"
  else if strContains appointment_choice "monday" then "next Monday at 10am"
  else if strContains appointment_choice "wednesday" then "next Wednesday at 11am"
  else "tomorrow at 3pm"

/-- patient_data as assembled by schedule_appointment before sending the
    confirmation. -/
abbrev PatientData := List (String × Val)

/-- schedule_appointment.  The date_converter.convert_relative_date call
    and the email_sender.send_appointment_confirmation call are injected:
    cvt returns the converted string or models a raised exception, and
    send returns the boolean outcome or models a raised exception.  Both
    arguments are read with args.get, so the handler never raises. -/
def schedule_appointment (cvt : String → Except Unit String)
    (send : PatientData → String → Except Unit Bool)
    (args : Args) (st : SessionState) : FRes × NodeConfig × SessionState :=
  let appointment_choice := lowerStr (argGetD args "appointment_choice" "")
  let custom_time := argGetD args "custom_time" ""
  let selected_appointment := selectAppointment appointment_choice custom_time
  let st1 :=
    if nothingWorksKw appointment_choice then stSet st "custom_time" (Val.vs custom_time)
    else st
  let st2 :=
    match cvt selected_appointment with
    | Except.ok converted_appointment =>
        stSet (stSet (stSet st1 "selected_appointment" (Val.vs selected_appointment))
          "converted_appointment" (Val.vs converted_appointment))
          "custom_time" (Val.vs custom_time)
    | Except.error _ =>
        stSet (stSet (stSet st1 "selected_appointment" (Val.vs selected_appointment))
          "converted_appointment" (Val.vs selected_appointment))
          "custom_time" (Val.vs custom_time)
  let appointment_for_email :=
    match cvt selected_appointment with
    | Except.ok converted_appointment => converted_appointment
    | Except.error _ => selected_appointment
  let patient_data : PatientData :=
    [("name", stGetD st2 "name" (Val.vs "Unknown")),
     ("date_of_birth", stGetD st2 "date_of_birth" (Val.vs "Not provided")),
     ("address", stGetD st2 "address" (Val.vs "Not provided")),
     ("phone_number", stGetD st2 "phone_number" (Val.vs "Not provided")),
     ("payer_name", stGetD st2 "payer_name" (Val.vs "Not provided")),
     ("chief_complaint", stGetD st2 "chief_complaint" (Val.vs "Not provided"))]
  let _email_sent := send patient_data appointment_for_email
  ([("selected_appointment", selected_appointment), ("custom_time", custom_time)],
    create_end_node, st2)

/-- end_quote. -/
def end_quote (_args : Args) : FRes × NodeConfig :=
  ([("status", "completed")], create_end_node)

/-- A valid address_data sample, as the validator would build it for a
    precise geocode result. -/
def sampleAddrData : AddressData :=
  [("formatted_address", AVal.s "123 Main St, Springfield, IL 62701, USA")]

/-- The happy-path run of the spec: each handler invoked once in canonical
    order with acceptable inputs, the validator reporting valid, collecting
    the node names visited from the initial node to the terminal node. -/
def happyPathNames : Option (List String) :=
  (collect_name [("name", "Jane Doe")] []).bind fun r1 =>
  (collect_date_of_birth [("date_of_birth", "January 1, 1990")] r1.2.2).bind fun r2 =>
  (collect_insurance [("payer_name", "Acme Health"), ("payID", "A123")] r2.2.2).bind fun r3 =>
  (collect_referral [("referral", "Dr. Jones")] r3.2.2).bind fun r4 =>
  (collect_chief_complaint [("chief_complaint", "headache")] r4.2.2).bind fun r5 =>
  (collect_address (Except.ok (true, some sampleAddrData, none))
      [("address", "123 Main St")] r5.2.2).bind fun r6 =>
  (collect_contact_info [("phone_number", "555-0100")] r6.2.2).bind fun r7 =>
  let r8 := schedule_appointment (fun s => Except.ok s) (fun _ _ => Except.ok true)
      [("appointment_choice", "tomorrow works")] r7.2.2
  some [create_initial_node.name, r1.2.1.name, r2.2.1.name, r3.2.1.name, r4.2.1.name,
    r5.2.1.name, r6.2.1.name, r7.2.1.name, r8.2.1.name]

/-- Modelled from the spec wording of the tie-break rule, for comparison
    with the code branch chain: among the offered days present in the
    utterance the first in presentation order (tomorrow, then Monday, then
    Wednesday) wins, and an utterance matching no keyword defaults to the
    first offered slot. -/
def presentationOrderSelect (u : String) : String :=
  if strContains u "tomorrow" then "tomorrow at 3pm"
  else if strContains u "monday" then "next Monday at 10am"
  else if strContains u "wednesday" then "next Wednesday at 11am"
  else "tomorrow at 3pm"

/- ----------------------------------------------------------------
   Helper lemmas.
   ---------------------------------------------------------------- -/

/-- Appending strings appends their character data. -/
theorem strData_append (s t : String) : (s ++ t).data = s.data ++ t.data := by
  cases s; cases t; rfl

/-- The empty pattern is an initial segment of every list. -/
theorem listStartsWith_nilPat (l : List Char) : listStartsWith l [] = true := by
  cases l <;> rfl

/-- A list starts with itself, whatever follows. -/
theorem listStartsWith_append (p rest : List Char) : listStartsWith (p ++ rest) p = true := by
  induction p with
  | nil => exact listStartsWith_nilPat rest
  | cons c cs ih => simp [listStartsWith, ih]

/-- The empty pattern occurs in every list. -/
theorem hasSubList_nilPat (l : List Char) : hasSubList l [] = true := by
  cases l <;> simp [hasSubList, listStartsWith, List.isEmpty]

/-- A pattern occurs in any list that begins with it. -/
theorem hasSubList_refl_append (p ys : List Char) : hasSubList (p ++ ys) p = true := by
  cases p with
  | nil => simpa using hasSubList_nilPat ys
  | cons c cs =>
    have h := listStartsWith_append (c :: cs) ys
    simp only [List.cons_append] at h
    simp [hasSubList, h]

/-- A pattern occurs in any list containing it contiguously. -/
theorem hasSubList_append_left (xs p ys : List Char) :
    hasSubList (xs ++ (p ++ ys)) p = true := by
  induction xs with
  | nil => simpa using hasSubList_refl_append p ys
  | cons x xs ih => simp [hasSubList, ih]

/-- A string embedded between two others is contained in the whole. -/
theorem strContains_middle (a pat b : String) :
    strContains (a ++ pat ++ b) pat = true := by
  have h : (a ++ pat ++ b).data = a.data ++ (pat.data ++ b.data) := by
    rw [strData_append, strData_append, List.append_assoc]
  unfold strContains
  rw [h]
  exact hasSubList_append_left _ _ _

/-- Reading the key just written. -/
theorem stGet_stSet_self (st : SessionState) (k : String) (v : Val) :
    stGet (stSet st k v) k = some v := by
  simp [stSet, stGet]

/-- Reading a different key sees through a write. -/
theorem stGet_stSet_ne (st : SessionState) (k key : String) (v : Val) (h : key ≠ k) :
    stGet (stSet st k v) key = stGet st key := by
  have hb : (k == key) = false := beq_eq_false_iff_ne.mpr (fun e => h e.symm)
  simp [stSet, stGet, hb]

/- ----------------------------------------------------------------
   Claim theorems.
   ---------------------------------------------------------------- -/

/-- Claim C1: when the validator judges the address invalid, collect_address
    writes the error reason to state under address_validation_error, returns
    a result whose address is empty, and moves to the synthesized retry node,
    whose single declared tool is collect_address and whose prompt embeds the
    error reason. -/
theorem collect_address_invalid_retry
    (args : Args) (st : SessionState) (address err : String) (dataOpt : Option AddressData)
    (h : alistGet args "address" = some address) :
    collect_address (Except.ok (false, dataOpt, some err)) args st =
      some ([("address", "")], create_address_retry_node err,
        stSet st "address_validation_error" (Val.vs err)) ∧
    (create_address_retry_node err).functions.map ToolFunction.name = ["collect_address"] ∧
    (create_address_retry_node err).task_messages =
      [{ role := "system",
         content := "The address provided could not be validated. " ++ err ++ " Please ask the customer to provide their complete address again, including street number, street name, city, state, and zip code." }] ∧
    strContains ("The address provided could not be validated. " ++ err ++ " Please ask the customer to provide their complete address again, including street number, street name, city, state, and zip code.") err = true := by
  refine ⟨?_, rfl, rfl, strContains_middle _ _ _⟩
  unfold collect_address
  rw [h]
  rfl

/-- Witness for C1 at a concrete invalid outcome. -/
theorem collect_address_invalid_retry_witness :
    alistGet [("address", "x")] "address" = some "x" ∧
    (collect_address
        (Except.ok (false, none,
          some "Address not found. Please provide a more specific address."))
        [("address", "x")] [] =
      some ([("address", "")],
        create_address_retry_node "Address not found. Please provide a more specific address.",
        stSet [] "address_validation_error"
          (Val.vs "Address not found. Please provide a more specific address.")) ∧
      (create_address_retry_node "Address not found. Please provide a more specific address.").functions.map ToolFunction.name = ["collect_address"] ∧
      (create_address_retry_node "Address not found. Please provide a more specific address.").task_messages =
        [{ role := "system",
           content := "The address provided could not be validated. " ++ "Address not found. Please provide a more specific address." ++ " Please ask the customer to provide their complete address again, including street number, street name, city, state, and zip code." }] ∧
      strContains ("The address provided could not be validated. " ++ "Address not found. Please provide a more specific address." ++ " Please ask the customer to provide their complete address again, including street number, street name, city, state, and zip code.") "Address not found. Please provide a more specific address." = true) :=
  ⟨rfl, collect_address_invalid_retry [("address", "x")] [] "x"
    "Address not found. Please provide a more specific address." none rfl⟩

/-- Claim C2 (divergence witness): a service error of the geocoding backend
    is caught inside validate_address and reported as an invalid address, so
    the composed collect_address goes to the retry node without storing the
    raw address; the graceful-degradation arm of the handler only fires when
    the validate_address call itself raises, which the repository validator
    never does. -/
theorem address_service_error_goes_to_retry :
    validate_address (Except.error GeoErr.apiError) =
      (false, none, some "Unable to validate address due to service error. Please try again.") ∧
    collect_address_system (Except.error GeoErr.apiError)
        [("address", "123 Main St, Springfield, IL")] [] =
      some ([("address", "")],
        create_address_retry_node "Unable to validate address due to service error. Please try again.",
        [("address_validation_error",
          Val.vs "Unable to validate address due to service error. Please try again.")]) ∧
    ((collect_address_system (Except.error GeoErr.apiError)
        [("address", "123 Main St, Springfield, IL")] []).map (fun r => r.2.1.name)) =
      some "address_retry" ∧
    collect_address (Except.error ()) [("address", "123 Main St, Springfield, IL")] [] =
      some ([("address", "123 Main St, Springfield, IL")], create_contact_info_node,
        [("address", Val.vs "123 Main St, Springfield, IL")]) :=
  ⟨rfl, rfl, rfl, rfl⟩

/-- Claim C4 (divergence witness): the referral tool schema declares the
    required parameter referral_name, but the handler reads args["referral"];
    on schema-conforming arguments it raises KeyError (modelled as none) and
    neither writes state nor transitions, while on the undeclared key
    referral it does write referral_doctor and advance. -/
theorem collect_referral_schema_mismatch :
    (create_referral_node.functions.map (fun f => (f.name, f.required))) =
      [("collect_referral", ["referral_name"]), ("collect_chief_complaint", ["chief_complaint"])] ∧
    collect_referral [("referral_name", "Dr. Jones")] [] = none ∧
    collect_referral [("referral", "Dr. Jones")] [] =
      some ([("referral", "Dr. Jones")], create_chief_complaint_node,
        [("referral_doctor", Val.vs "Dr. Jones")]) :=
  ⟨rfl, rfl, rfl⟩

/-- Claim C3: outside the custom-time and anything-works keyword branches,
    the ordered substring chain of schedule_appointment selects exactly by
    presentation order (tomorrow, Monday, Wednesday) with the default being
    the first offered slot; matching is on the lowercased utterance, and in
    particular "tomorrow or Monday" selects "tomorrow at 3pm", as does an
    utterance matching no keyword. -/
theorem appointment_choice_presentation_order :
    (∀ u ct : String, nothingWorksKw u = false → anythingWorksKw u = false →
      selectAppointment u ct = presentationOrderSelect u) ∧
    (∀ (cvt : String → Except Unit String) (send : PatientData → String → Except Unit Bool)
        (st : SessionState),
      alistGet (schedule_appointment cvt send
          [("appointment_choice", "tomorrow or Monday")] st).1 "selected_appointment" =
        some "tomorrow at 3pm") ∧
    (∀ (cvt : String → Except Unit String) (send : PatientData → String → Except Unit Bool)
        (st : SessionState),
      alistGet (schedule_appointment cvt send
          [("appointment_choice", "anything works")] st).1 "selected_appointment" =
        some "tomorrow at 3pm") := by
  refine ⟨?_, fun cvt send st => rfl, fun cvt send st => rfl⟩
  intro u ct h1 h2
  unfold selectAppointment presentationOrderSelect
  rw [h1, h2]
  cases hT : strContains u "tomorrow" <;> cases hM : strContains u "monday" <;>
    cases hW : strContains u "wednesday" <;> simp [hT, hM, hW]

/-- Witness for C3 at a concrete utterance mentioning Wednesday before
    tomorrow, where presentation order still picks tomorrow. -/
theorem appointment_choice_presentation_order_witness :
    nothingWorksKw "wednesday and tomorrow" = false ∧
    anythingWorksKw "wednesday and tomorrow" = false ∧
    selectAppointment "wednesday and tomorrow" "" =
      presentationOrderSelect "wednesday and tomorrow" :=
  ⟨rfl, rfl, appointment_choice_presentation_order.1 "wednesday and tomorrow" "" rfl rfl⟩

/-- Claim C5: every invocation of schedule_appointment transitions to the
    terminal end node, whatever the classification, the date-conversion
    outcome (on a conversion failure the original relative phrase is stored
    as the converted appointment) and the notification outcome (the whole
    handler output is independent of the send outcome, so a delivery
    failure cannot propagate past the handler). -/
theorem schedule_appointment_always_ends
    (cvt : String → Except Unit String)
    (send send2 : PatientData → String → Except Unit Bool)
    (args : Args) (st : SessionState) :
    (schedule_appointment cvt send args st).2.1 = create_end_node ∧
    create_end_node.post_actions = ["end_conversation"] ∧
    create_end_node.functions = [] ∧
    schedule_appointment cvt send args st = schedule_appointment cvt send2 args st ∧
    (cvt (selectAppointment (lowerStr (argGetD args "appointment_choice" ""))
        (argGetD args "custom_time" "")) = Except.error () →
      stGet (schedule_appointment cvt send args st).2.2 "converted_appointment" =
        some (Val.vs (selectAppointment (lowerStr (argGetD args "appointment_choice" ""))
          (argGetD args "custom_time" "")))) := by
  refine ⟨rfl, rfl, rfl, rfl, ?_⟩
  intro h
  simp only [schedule_appointment, h]
  rw [stGet_stSet_ne _ _ _ _ (by decide)]
  exact stGet_stSet_self _ _ _

/-- Witness for C5 with a converter that raises. -/
theorem schedule_appointment_always_ends_witness :
    stGet (schedule_appointment (fun _ => Except.error ()) (fun _ _ => Except.ok true)
        [] []).2.2 "converted_appointment" = some (Val.vs "tomorrow at 3pm") :=
  (schedule_appointment_always_ends (fun _ => Except.error ())
    (fun _ _ => Except.ok true) (fun _ _ => Except.ok true) [] []).2.2.2.2 rfl

/-- Arithmetic of _get_next_weekday: the returned day is strictly in the
    future, at most a week ahead, falls on the requested weekday, and is
    exactly a week ahead when today already is that weekday. -/
theorem getNextWeekday_spec (today w : Nat) (hw : w < 7) :
    today < getNextWeekday today w ∧ getNextWeekday today w ≤ today + 7 ∧
    pyWeekday (getNextWeekday today w) = w ∧
    (pyWeekday today = w → getNextWeekday today w = today + 7) := by
  unfold getNextWeekday pyWeekday
  split_ifs with h <;>
    refine ⟨by omega, by omega, by omega, fun h2 => by omega⟩

/-- Claim C6 (amended to the weekdays the converter recognizes): for each of
    Monday through Friday, optionally prefixed "next", the converter computes
    the next future occurrence of that weekday from any today: strictly after
    today, at most seven days ahead, on the requested weekday, and exactly
    seven days later when today is that weekday. -/
theorem weekday_conversion_next_occurrence (today : Nat) (k : Fin 5) :
    convertTargetDate today (weekdayName k) = some (getNextWeekday today k.val) ∧
    convertTargetDate today ("next " ++ weekdayName k) = some (getNextWeekday today k.val) ∧
    convert_relative_date today (weekdayName k) =
      formatDate (getNextWeekday today k.val) ++ timeStrOf (stripLower (weekdayName k)).data ∧
    timeStrOf (stripLower (weekdayName k)).data = "" ∧
    today < getNextWeekday today k.val ∧
    getNextWeekday today k.val ≤ today + 7 ∧
    pyWeekday (getNextWeekday today k.val) = k.val ∧
    (pyWeekday today = k.val → getNextWeekday today k.val = today + 7) := by
  obtain ⟨h1, h2, h3, h4⟩ := getNextWeekday_spec today k.val (by omega)
  fin_cases k <;> exact ⟨rfl, rfl, rfl, rfl, h1, h2, h3, h4⟩

/-- Counterexample for C6 as stated for every weekday: Saturday is a weekday
    the converter does not recognize, so the input is returned unchanged and
    no future date is computed. -/
theorem weekday_conversion_saturday_counterexample :
    convert_relative_date 0 "saturday" = "saturday" ∧
    convertTargetDate 0 (stripLower "saturday") = none ∧
    ¬∃ d : Nat, convertTargetDate 0 (stripLower "saturday") = some d ∧ 0 < d := by
  refine ⟨rfl, rfl, ?_⟩
  rintro ⟨d, hd, -⟩
  rw [show convertTargetDate 0 (stripLower "saturday") = none from rfl] at hd
  exact Option.noConfusion hd

/-- Witness for C6 on a Monday: converting "monday" rolls a full week. -/
theorem weekday_conversion_next_occurrence_witness :
    pyWeekday 5 = 0 ∧ getNextWeekday 5 0 = 5 + 7 ∧
    convertTargetDate 5 (weekdayName 0) = some (getNextWeekday 5 0) :=
  ⟨rfl, (weekday_conversion_next_occurrence 5 0).2.2.2.2.2.2.2 rfl,
    (weekday_conversion_next_occurrence 5 0).1⟩

/-- Counterexample for C7 as stated: the else branch returns the lowercased,
    stripped reassignment of the input, not the input itself. -/
theorem convert_unrecognized_counterexample :
    recognizesKeyword (stripLower "ASAP") = false ∧
    convert_relative_date 0 "ASAP" = "asap" ∧
    convert_relative_date 0 "ASAP" ≠ "ASAP" := by
  refine ⟨rfl, rfl, ?_⟩
  decide

/-- Claim C7 (amended): on any input whose lowercased, stripped form contains
    none of the recognized keywords, the converter returns that lowercased,
    stripped form — the input itself exactly when it is already lowercase
    with no surrounding whitespace; in particular "3pm" comes back
    unchanged. -/
theorem convert_unrecognized_returns_stripped_lower :
    (∀ (today : Nat) (s : String), recognizesKeyword (stripLower s) = false →
      convert_relative_date today s = stripLower s) ∧
    convert_relative_date 0 "3pm" = "3pm" ∧ stripLower "3pm" = "3pm" := by
  refine ⟨?_, rfl, rfl⟩
  intro today s h
  simp only [recognizesKeyword, Bool.or_eq_false_iff] at h
  obtain ⟨⟨⟨⟨⟨⟨⟨h1, h2a, h2b⟩, h3a, h3b⟩, h4a, h4b⟩, h5a, h5b⟩, h6a, h6b⟩, h7⟩, h8a, h8b⟩ := h
  simp [convert_relative_date, convertTargetDate,
    h1, h2a, h2b, h3a, h3b, h4a, h4b, h5a, h5b, h6a, h6b, h7, h8a, h8b]

/-- Witness for C7 on another unrecognized phrase. -/
theorem convert_unrecognized_witness :
    recognizesKeyword (stripLower "3pm") = false ∧
    convert_relative_date 7 "3pm" = stripLower "3pm" :=
  ⟨rfl, convert_unrecognized_returns_stripped_lower.1 7 "3pm" rfl⟩

/-- Claim C8: the happy-path run, every handler accepted on first attempt
    and the validator reporting valid, visits exactly the nine canonical
    nodes with no repeats and finishes on the terminal end node. -/
theorem happy_path_nine_distinct_nodes :
    happyPathNames = some ["initial", "date_of_birth", "insurance", "referral",
      "chief_complaint", "address", "contact_info", "appointment_scheduling", "end"] ∧
    (["initial", "date_of_birth", "insurance", "referral", "chief_complaint", "address",
      "contact_info", "appointment_scheduling", "end"] : List String).Nodup ∧
    (["initial", "date_of_birth", "insurance", "referral", "chief_complaint", "address",
      "contact_info", "appointment_scheduling", "end"] : List String).length = 9 ∧
    create_end_node.post_actions = ["end_conversation"] ∧
    create_end_node.functions = [] :=
  ⟨rfl, by decide, rfl, rfl, rfl⟩

/-- Claim C9: each plain collection handler writes only its own designated
    state key(s); every other key of any pre-existing session state reads
    the same after the invocation. -/
theorem collection_handlers_frame
    (args : Args) (st : SessionState) (k : String)
    (r : FRes) (n : NodeConfig) (st2 : SessionState) :
    (collect_name args st = some (r, n, st2) → k ≠ "name" →
      stGet st2 k = stGet st k) ∧
    (collect_date_of_birth args st = some (r, n, st2) → k ≠ "date_of_birth" →
      stGet st2 k = stGet st k) ∧
    (collect_insurance args st = some (r, n, st2) → k ≠ "payer_name" → k ≠ "payID" →
      stGet st2 k = stGet st k) ∧
    (collect_referral args st = some (r, n, st2) → k ≠ "referral_doctor" →
      stGet st2 k = stGet st k) ∧
    (collect_chief_complaint args st = some (r, n, st2) → k ≠ "chief_complaint" →
      stGet st2 k = stGet st k) ∧
    (collect_contact_info args st = some (r, n, st2) → k ≠ "phone_number" → k ≠ "email" →
      stGet st2 k = stGet st k) := by
  refine ⟨?_, ?_, ?_, ?_, ?_, ?_⟩
  · intro h hk
    unfold collect_name at h
    cases hx : alistGet args "name" with
    | none => rw [hx] at h; cases h
    | some v =>
      rw [hx] at h
      simp only [Option.some.injEq, Prod.mk.injEq] at h
      obtain ⟨-, -, h3⟩ := h
      subst h3
      exact stGet_stSet_ne _ _ _ _ hk
  · intro h hk
    unfold collect_date_of_birth at h
    cases hx : alistGet args "date_of_birth" with
    | none => rw [hx] at h; cases h
    | some v =>
      rw [hx] at h
      simp only [Option.some.injEq, Prod.mk.injEq] at h
      obtain ⟨-, -, h3⟩ := h
      subst h3
      exact stGet_stSet_ne _ _ _ _ hk
  · intro h hk1 hk2
    unfold collect_insurance at h
    cases hx : alistGet args "payer_name" with
    | none => rw [hx] at h; cases h
    | some v =>
      rw [hx] at h
      cases hy : alistGet args "payID" with
      | none => rw [hy] at h; cases h
      | some w =>
        rw [hy] at h
        simp only [Option.some.injEq, Prod.mk.injEq] at h
        obtain ⟨-, -, h3⟩ := h
        subst h3
        rw [stGet_stSet_ne _ _ _ _ hk2]
        exact stGet_stSet_ne _ _ _ _ hk1
  · intro h hk
    unfold collect_referral at h
    cases hx : alistGet args "referral" with
    | none => rw [hx] at h; cases h
    | some v =>
      rw [hx] at h
      simp only [Option.some.injEq, Prod.mk.injEq] at h
      obtain ⟨-, -, h3⟩ := h
      subst h3
      exact stGet_stSet_ne _ _ _ _ hk
  · intro h hk
    unfold collect_chief_complaint at h
    cases hx : alistGet args "chief_complaint" with
    | none => rw [hx] at h; cases h
    | some v =>
      rw [hx] at h
      simp only [Option.some.injEq, Prod.mk.injEq] at h
      obtain ⟨-, -, h3⟩ := h
      subst h3
      exact stGet_stSet_ne _ _ _ _ hk
  · intro h hk1 hk2
    unfold collect_contact_info at h
    cases hx : alistGet args "phone_number" with
    | none => rw [hx] at h; cases h
    | some v =>
      rw [hx] at h
      simp only [Option.some.injEq, Prod.mk.injEq] at h
      obtain ⟨-, -, h3⟩ := h
      subst h3
      rw [stGet_stSet_ne _ _ _ _ hk2]
      exact stGet_stSet_ne _ _ _ _ hk1

/-- Witness for C9: collect_name leaves an unrelated key untouched. -/
theorem collection_handlers_frame_witness :
    stGet [("name", Val.vs "A"), ("prior", Val.vs "p")] "prior" =
      stGet [("prior", Val.vs "p")] "prior" :=
  (collection_handlers_frame [("name", "A")] [("prior", Val.vs "p")] "prior"
    [("name", "A")] create_date_of_birth_node
    [("name", Val.vs "A"), ("prior", Val.vs "p")]).1 rfl (by decide)

/-- Claim C10: when the caller says none of the offered slots work and gives
    no custom time, the selected appointment is the sentinel string and the
    state key custom_time is set to the empty string. -/
theorem schedule_custom_time_sentinel
    (cvt : String → Except Unit String) (send : PatientData → String → Except Unit Bool)
    (args : Args) (st : SessionState)
    (hn : nothingWorksKw (lowerStr (argGetD args "appointment_choice" "")) = true)
    (hc : argGetD args "custom_time" "" = "") :
    alistGet (schedule_appointment cvt send args st).1 "selected_appointment" =
      some "Custom time requested" ∧
    stGet (schedule_appointment cvt send args st).2.2 "custom_time" =
      some (Val.vs "") := by
  have hsel : selectAppointment (lowerStr (argGetD args "appointment_choice" ""))
      (argGetD args "custom_time" "") = "Custom time requested" := by
    unfold selectAppointment
    rw [hn, hc]
    rfl
  constructor
  · rw [show alistGet (schedule_appointment cvt send args st).1 "selected_appointment" =
        some (selectAppointment (lowerStr (argGetD args "appointment_choice" ""))
          (argGetD args "custom_time" "")) from rfl, hsel]
  · simp only [schedule_appointment]
    cases hcv : cvt (selectAppointment (lowerStr (argGetD args "appointment_choice" ""))
        (argGetD args "custom_time" "")) with
    | ok c =>
      rw [hc]
      exact stGet_stSet_self _ _ _
    | error e =>
      rw [hc]
      exact stGet_stSet_self _ _ _

/-- Witness for C10 at a concrete utterance with no custom time supplied. -/
theorem schedule_custom_time_sentinel_witness :
    nothingWorksKw (lowerStr (argGetD [("appointment_choice", "Nothing works for me")]
      "appointment_choice" "")) = true ∧
    argGetD [("appointment_choice", "Nothing works for me")] "custom_time" "" = "" ∧
    (alistGet (schedule_appointment (fun s => Except.ok s) (fun _ _ => Except.ok true)
        [("appointment_choice", "Nothing works for me")] []).1 "selected_appointment" =
      some "Custom time requested" ∧
     stGet (schedule_appointment (fun s => Except.ok s) (fun _ _ => Except.ok true)
        [("appointment_choice", "Nothing works for me")] []).2.2 "custom_time" =
      some (Val.vs "")) :=
  ⟨rfl, rfl, schedule_custom_time_sentinel _ _ _ _ rfl rfl⟩
